import Mathlib

/-!
Verification of the OpenList driver-manager isolation layer.

This file gives a shallow embedding of the wire protocol, the stream-session
request machinery, the connection pool / inbound registry, and the remote-side
instance manager of the repository, and proves the testable properties stated
in the specification against it.

Modelling conventions:
* JSON-shaped Go `interface` values are `GoVal`; JSON numbers are modelled as
  integers (the protocol only carries counts and error codes).
* Go maps are association lists.  Lookup that models JSON object decoding
  (`jsonLookup`) is last-occurrence-wins, as `encoding/json` assigns fields in
  key order; lookup that models a Go `map` (`assocLookup`) assumes the unique
  keys of a real map.
* The clock value read by `time.Now().UnixNano()` and the bytes delivered by a
  peer are inputs of the embedded functions, since the code does not control
  them.
-/

/-- A JSON-shaped Go value, the payload type carried in the protocol's
`interface` fields.  `null` also stands for Go's nil `interface` value. -/
inductive GoVal where
  | null
  | bool (b : Bool)
  | num (n : Int)
  | str (s : String)
  | arr (elems : List GoVal)
  | obj (fields : List (String × GoVal))

/-- `ErrorInfo` of `protocol.go` / the host-side client: an error code and
message carried in a response. -/
structure ErrorInfo where
  code : Int
  message : String

/-- The wire `Message` of `protocol.go` and the host-side client: envelope of
every protocol line.  `method` is a plain string (Go zero value `""` when the
JSON field is absent); `params` is `none` for a nil Go map and `some l` for a
non-nil map with entries `l`; `result` is a bare `interface` value where
`GoVal.null` is the nil interface; `error` is an optional pointer. -/
structure Message where
  id : String
  type : String
  method : String
  params : Option (List (String × GoVal))
  result : GoVal
  error : Option ErrorInfo

/-- Decoding lookup into a JSON object: later duplicate keys win, as in
`encoding/json` field assignment order. -/
def jsonLookup : List (String × GoVal) → String → Option GoVal
  | [], _ => none
  | (k, v) :: rest, key =>
    match jsonLookup rest key with
    | some r => some r
    | none => if k = key then some v else none

/-- Decode a JSON field into a Go `string` struct field: absent or `null`
leaves the zero value `""`, a string is taken as-is, anything else is a
type error. -/
def decodeStringField : Option GoVal → Option String
  | none => some ""
  | some .null => some ""
  | some (.str s) => some s
  | some _ => none

/-- Decode a JSON field into a Go `int` struct field. -/
def decodeIntField : Option GoVal → Option Int
  | none => some 0
  | some .null => some 0
  | some (.num n) => some n
  | some _ => none

/-- Decode a JSON field into a Go `map[string]interface` struct field:
absent or `null` leaves the nil map, an object gives a non-nil map. -/
def decodeParamsField : Option GoVal → Option (Option (List (String × GoVal)))
  | none => some none
  | some .null => some none
  | some (.obj l) => some (some l)
  | some _ => none

/-- Decode a JSON field into a Go `interface` struct field: never fails,
absent leaves the nil interface. -/
def decodeResultField : Option GoVal → GoVal
  | none => .null
  | some v => v

/-- Decode a JSON field into the `error *ErrorInfo` struct field. -/
def decodeErrorField : Option GoVal → Option (Option ErrorInfo)
  | none => some none
  | some .null => some none
  | some (.obj l) => do
    let code ← decodeIntField (jsonLookup l "code")
    let message ← decodeStringField (jsonLookup l "message")
    some (some ⟨code, message⟩)
  | some _ => none

/-- `json.Unmarshal` of one line into a `Message` (the struct of
`protocol.go` and the host-side client).  `null` is a no-op that leaves the
zero `Message`; a non-object is a type error; unknown keys are ignored. -/
def unmarshalMessage : GoVal → Option Message
  | .null => some ⟨"", "", "", none, .null, none⟩
  | .obj fields => do
    let id ← decodeStringField (jsonLookup fields "id")
    let typ ← decodeStringField (jsonLookup fields "type")
    let method ← decodeStringField (jsonLookup fields "method")
    let params ← decodeParamsField (jsonLookup fields "params")
    let error ← decodeErrorField (jsonLookup fields "error")
    some ⟨id, typ, method, params, decodeResultField (jsonLookup fields "result"), error⟩
  | _ => none

/-- The `method,omitempty` struct tag: the field is emitted unless the string
is empty. -/
def marshalMethod (m : String) : List (String × GoVal) :=
  if m = "" then [] else [("method", .str m)]

/-- The `params,omitempty` struct tag: the field is emitted unless the map is
nil or empty. -/
def marshalParams : Option (List (String × GoVal)) → List (String × GoVal)
  | none => []
  | some [] => []
  | some l => [("params", .obj l)]

/-- The `result,omitempty` struct tag: the field is emitted unless the
interface value is nil. -/
def marshalResult : GoVal → List (String × GoVal)
  | .null => []
  | v => [("result", v)]

/-- The `error,omitempty` struct tag: the field is emitted unless the pointer
is nil. -/
def marshalError : Option ErrorInfo → List (String × GoVal)
  | none => []
  | some e => [("error", .obj [("code", .num e.code), ("message", .str e.message)])]

/-- `json.Marshal` of a `Message`: fields in struct order, honouring the
`omitempty` tags of `protocol.go` (`id` and `type` are always emitted). -/
def marshalMessage (m : Message) : GoVal :=
  .obj ([("id", .str m.id), ("type", .str m.type)]
    ++ marshalMethod m.method ++ marshalParams m.params
    ++ marshalResult m.result ++ marshalError m.error)

/-- Little-endian decimal digit characters of `n` with explicit fuel
(structural recursion so that concrete values reduce in the kernel);
`fuel ≥ n` always suffices since the argument shrinks by division by 10. -/
def decDigitsCore : Nat → Nat → List Char
  | 0, _ => []
  | _ + 1, 0 => []
  | fuel + 1, n + 1 => Nat.digitChar ((n + 1) % 10) :: decDigitsCore fuel ((n + 1) / 10)

/-- Little-endian decimal digit characters of a natural number. -/
def decDigitsLE (n : Nat) : List Char :=
  decDigitsCore n n

/-- The decimal rendering of a natural number, as produced by Go's
`fmt` verb `%d` for a non-negative integer. -/
def natToDecString (n : Nat) : String :=
  if n = 0 then "0" else (decDigitsLE n).reverse.asString

/-- The decimal rendering of a Go `int`/`int64` under `%d`. -/
def intToDecString : Int → String
  | .ofNat n => natToDecString n
  | .negSucc n => "-" ++ natToDecString (n + 1)

/-- The correlation-ID generator of `sendRequest` (host-side client and
inbound-server connection alike): `fmt.Sprintf` of the method name, a dash,
and the `time.Now().UnixNano()` reading. -/
def genId (method : String) (nanos : Nat) : String :=
  method ++ "-" ++ natToDecString nanos

/-- The pending-response table of a stream session: the correlation IDs that
currently have a registered delivery channel.  Go map semantics: registering
an existing ID overwrites it (no new entry), deleting removes the single
entry under the key. -/
def tableInsert (l : List String) (id : String) : List String :=
  if id ∈ l then l else l ++ [id]

/-- `delete(responses, id)` on the pending-response table. -/
def tableDelete (l : List String) (id : String) : List String :=
  l.filter (fun x => x ≠ id)

/-- The mutable state of one stream session that `sendRequest` touches:
the connected flag and the pending-response table. -/
structure SessionState where
  connected : Bool
  responses : List String

/-- How the blocking select of `sendRequest` resolves: a response delivered
to the channel, the 30s timer, or the caller's context firing. -/
inductive WaitOutcome where
  | response (m : Message)
  | timeout
  | cancelled (err : String)

/-- What one `sendRequest` call did: its return value, the pending table it
leaves behind, and whether it registered a delivery channel / wrote to the
socket at all. -/
structure SendOutcome where
  result : Except String GoVal
  finalResponses : List String
  registered : Bool
  wrote : Bool

/-- `sendRequest` of the host-side client (`part_000`) and of the inbound
server connection (`part_001`) — textually identical in the two files.
Fails fast when disconnected; otherwise registers a channel under the
generated correlation ID, writes the request, waits, and removes the
registration under that ID in a deferred block on every exit path.
`nanos` is the `time.Now().UnixNano()` reading, `writeOk` the outcome of
the socket write, `outcome` how the select resolves. -/
def sendRequest (st : SessionState) (method : String) (nanos : Nat)
    (writeOk : Bool) (outcome : WaitOutcome) : SendOutcome :=
  if st.connected = false then
    { result := .error "not connected to driver manager",
      finalResponses := st.responses, registered := false, wrote := false }
  else
    let id := genId method nanos
    let afterReg := tableInsert st.responses id
    if writeOk = false then
      { result := .error "failed to send request",
        finalResponses := tableDelete afterReg id, registered := true, wrote := true }
    else
      let result : Except String GoVal :=
        match outcome with
        | .cancelled e => .error e
        | .timeout => .error "request timeout"
        | .response resp =>
          match resp.error with
          | some e => .error ("driver manager error " ++ intToDecString e.code ++ ": " ++ e.message)
          | none => .ok resp.result
      { result := result, finalResponses := tableDelete afterReg id,
        registered := true, wrote := true }

/-- The correlation IDs issued by a sequence of `sendRequest` calls that are
all still pending: one `(method, UnixNano reading)` pair per call. -/
def pendingIds (calls : List (String × Nat)) : List String :=
  calls.map fun c => genId c.1 c.2

/-- One line received from the peer: either not valid JSON at all, or a JSON
value (which may still fail to decode as a `Message`). -/
inductive LineInput where
  | notJson (raw : String)
  | jsonVal (v : GoVal)

/-- The result of `json.Unmarshal` of a received line into a `Message`. -/
def parseMessage : LineInput → Option Message
  | .notJson _ => none
  | .jsonVal v => unmarshalMessage v

/-- What one read-loop iteration did: messages written back, a response
delivered to a registered awaiter, or the line dropped/skipped. -/
structure ReadLoopEffect where
  sent : List Message
  delivered : Option (String × Message)
  dropped : Bool

/-- One iteration of the read loop `processMessages` (identical in the
host-side client `part_000` and the inbound server connection `part_001`):
an unparseable line is logged and dropped, handshake messages are skipped,
a response with a registered awaiter is delivered to it, everything else is
dropped; the loop never writes to the socket. -/
def readLoopStep (pending : List String) (line : LineInput) : ReadLoopEffect :=
  match parseMessage line with
  | none => { sent := [], delivered := none, dropped := true }
  | some msg =>
    if msg.type = "handshake" then { sent := [], delivered := none, dropped := true }
    else if msg.type = "response" ∧ msg.id ≠ "" ∧ msg.id ∈ pending then
      { sent := [], delivered := some (msg.id, msg), dropped := false }
    else { sent := [], delivered := none, dropped := true }

/-- A call made into the remote-side `DriverManager` by a protocol handler. -/
inductive MgrCall where
  | listDrivers
  | getInfo (driver : String)
  | create (instanceID driverName : String) (config : List (String × GoVal))
  | remove (instanceID : String)
  | listInstances
  | enable (instanceID : String)
  | disable (instanceID : String)
  | execute (instanceID operation : String) (params : List (String × GoVal))

/-- The observable outcomes of the remote-side `DriverManager` as seen by
the protocol handlers of `protocol.go` (a collaborator of that file). -/
structure ManagerOracle where
  listDriversResult : GoVal
  getDriverInfoResult : String → Except String GoVal
  createResult : String → String → List (String × GoVal) → Except String Unit
  removeResult : String → Except String Unit
  listInstancesResult : GoVal
  enableResult : String → Except String Unit
  disableResult : String → Except String Unit
  executeResult : String → String → List (String × GoVal) → Except String GoVal

/-- `sendError` of `protocol.go`: a response carrying only an error pair. -/
def errorResponse (id : String) (code : Int) (message : String) : Message :=
  ⟨id, "response", "", none, .null, some ⟨code, message⟩⟩

/-- A success response carrying a result. -/
def resultResponse (id : String) (result : GoVal) : Message :=
  ⟨id, "response", "", none, result, none⟩

/-- What one protocol-handler invocation did: the manager call it made, if
any, and the response it wrote back. -/
structure HandlerEffect where
  call : Option MgrCall
  sent : Message

/-- `msg.Params[key]` — indexing a possibly-nil Go map. -/
def getParam (msg : Message) (key : String) : Option GoVal :=
  match msg.params with
  | none => none
  | some l => jsonLookup l key

/-- The Go type assertion `v.(string)`; fails on a missing key or nil. -/
def asGoString : Option GoVal → Option String
  | some (.str s) => some s
  | _ => none

/-- The Go type assertion `v.(map[string]interface)`. -/
def asGoObj : Option GoVal → Option (List (String × GoVal))
  | some (.obj l) => some l
  | _ => none

/-- Tail of `handleCreateInstance` once both string parameters are present:
call the manager and answer success or a code-500 error. -/
def finishCreate (mgr : ManagerOracle) (msgId instanceID driverName : String)
    (config : List (String × GoVal)) : HandlerEffect :=
  { call := some (.create instanceID driverName config),
    sent :=
      match mgr.createResult instanceID driverName config with
      | .error e => errorResponse msgId 500 e
      | .ok _ => resultResponse msgId (.str "success") }

/-- `handleCreateInstance` of `protocol.go`: missing or non-string
`instance_id`/`driver` is a code-400 rejection; a missing or non-object
`config` is silently replaced by an empty map. -/
def handleCreateInstance (mgr : ManagerOracle) (msg : Message) : HandlerEffect :=
  match asGoString (getParam msg "instance_id") with
  | none => { call := none, sent := errorResponse msg.id 400 "instance_id parameter is required" }
  | some instanceID =>
    match asGoString (getParam msg "driver") with
    | none => { call := none, sent := errorResponse msg.id 400 "driver parameter is required" }
    | some driverName =>
      finishCreate mgr msg.id instanceID driverName ((asGoObj (getParam msg "config")).getD [])

/-- `handleRemoveInstance` of `protocol.go`. -/
def handleRemoveInstance (mgr : ManagerOracle) (msg : Message) : HandlerEffect :=
  match asGoString (getParam msg "instance_id") with
  | none => { call := none, sent := errorResponse msg.id 400 "instance_id parameter is required" }
  | some instanceID =>
    { call := some (.remove instanceID),
      sent :=
        match mgr.removeResult instanceID with
        | .error e => errorResponse msg.id 500 e
        | .ok _ => resultResponse msg.id (.str "success") }

/-- `handleEnableInstance` of `protocol.go`. -/
def handleEnableInstance (mgr : ManagerOracle) (msg : Message) : HandlerEffect :=
  match asGoString (getParam msg "instance_id") with
  | none => { call := none, sent := errorResponse msg.id 400 "instance_id parameter is required" }
  | some instanceID =>
    { call := some (.enable instanceID),
      sent :=
        match mgr.enableResult instanceID with
        | .error e => errorResponse msg.id 500 e
        | .ok _ => resultResponse msg.id (.str "success") }

/-- `handleDisableInstance` of `protocol.go`. -/
def handleDisableInstance (mgr : ManagerOracle) (msg : Message) : HandlerEffect :=
  match asGoString (getParam msg "instance_id") with
  | none => { call := none, sent := errorResponse msg.id 400 "instance_id parameter is required" }
  | some instanceID =>
    { call := some (.disable instanceID),
      sent :=
        match mgr.disableResult instanceID with
        | .error e => errorResponse msg.id 500 e
        | .ok _ => resultResponse msg.id (.str "success") }

/-- `handleListDrivers` of `protocol.go` (catalog contents opaque here). -/
def handleListDrivers (mgr : ManagerOracle) (msg : Message) : HandlerEffect :=
  { call := some .listDrivers, sent := resultResponse msg.id mgr.listDriversResult }

/-- `handleListInstances` of `protocol.go`. -/
def handleListInstances (mgr : ManagerOracle) (msg : Message) : HandlerEffect :=
  { call := some .listInstances, sent := resultResponse msg.id mgr.listInstancesResult }

/-- `handleGetDriverInfo` of `protocol.go`: registry misses answer 404. -/
def handleGetDriverInfo (mgr : ManagerOracle) (msg : Message) : HandlerEffect :=
  match asGoString (getParam msg "driver") with
  | none => { call := none, sent := errorResponse msg.id 400 "driver parameter is required" }
  | some driverName =>
    { call := some (.getInfo driverName),
      sent :=
        match mgr.getDriverInfoResult driverName with
        | .error e => errorResponse msg.id 404 e
        | .ok r => resultResponse msg.id r }

/-- Tail of `handleExecuteOperation` once both string parameters are
present. -/
def finishExecute (mgr : ManagerOracle) (msgId instanceID operation : String)
    (params : List (String × GoVal)) : HandlerEffect :=
  { call := some (.execute instanceID operation params),
    sent :=
      match mgr.executeResult instanceID operation params with
      | .error e => errorResponse msgId 500 e
      | .ok r => resultResponse msgId r }

/-- `handleExecuteOperation` of `protocol.go`: missing or non-string
`instance_id`/`operation` is a code-400 rejection; a missing or non-object
`params` is silently replaced by an empty map. -/
def handleExecuteOperation (mgr : ManagerOracle) (msg : Message) : HandlerEffect :=
  match asGoString (getParam msg "instance_id") with
  | none => { call := none, sent := errorResponse msg.id 400 "instance_id parameter is required" }
  | some instanceID =>
    match asGoString (getParam msg "operation") with
    | none => { call := none, sent := errorResponse msg.id 400 "operation parameter is required" }
    | some operation =>
      finishExecute mgr msg.id instanceID operation ((asGoObj (getParam msg "params")).getD [])

/-- `handleRequest` of `protocol.go`: dispatch on the method name; an
unknown method is a code-400 rejection. -/
def handleRequest (mgr : ManagerOracle) (msg : Message) : HandlerEffect :=
  if msg.method = "list_drivers" then handleListDrivers mgr msg
  else if msg.method = "get_driver_info" then handleGetDriverInfo mgr msg
  else if msg.method = "create_instance" then handleCreateInstance mgr msg
  else if msg.method = "remove_instance" then handleRemoveInstance mgr msg
  else if msg.method = "list_instances" then handleListInstances mgr msg
  else if msg.method = "enable_instance" then handleEnableInstance mgr msg
  else if msg.method = "disable_instance" then handleDisableInstance mgr msg
  else if msg.method = "execute_operation" then handleExecuteOperation mgr msg
  else { call := none, sent := errorResponse msg.id 400 ("Unknown method: " ++ msg.method) }

/-- `handlePing` of `protocol.go`: echo a `"pong"` result under the same
ID. -/
def handlePing (msg : Message) : HandlerEffect :=
  { call := none, sent := resultResponse msg.id (.str "pong") }

/-- The `id` left in the `Message` value when `json.Unmarshal` fails:
Go fills every field that decodes cleanly even when another field's type
mismatch makes `Unmarshal` return an error, so an object line with a
well-typed string `id` leaves that id behind; a line that is not a JSON
object, or whose `id` itself mistypes, leaves the zero value `""`. -/
def idFromFailedDecode : LineInput → String
  | .jsonVal (.obj fields) =>
    match jsonLookup fields "id" with
    | some (.str s) => s
    | _ => ""
  | _ => ""

/-- `processMessage` of `protocol.go`: a line that does not unmarshal is
answered with a code-400 error response whose id is whatever the partial
decode left in `msg.ID` (the empty id when nothing decoded); parsed
messages dispatch on their type and unknown types are rejected with code
400.  `parseErrText` stands for the Go JSON error text interpolated into
the message; the loop in `Handle` then continues with the next line as
long as writing the response succeeds. -/
def processMessage (mgr : ManagerOracle) (line : LineInput) (parseErrText : String) :
    HandlerEffect :=
  match parseMessage line with
  | none =>
    { call := none,
      sent := errorResponse (idFromFailedDecode line) 400 ("Invalid JSON: " ++ parseErrText) }
  | some msg =>
    if msg.type = "request" then handleRequest mgr msg
    else if msg.type = "ping" then handlePing msg
    else { call := none, sent := errorResponse msg.id 400 ("Unknown message type: " ++ msg.type) }

/-- One remote driver-manager session as seen by the fan-out layer: its
connected flag and the outcome of a whole `sendRequest` round trip for a
given method and params (the remote process's answer is a collaborator). -/
structure RemoteSession where
  connected : Bool
  respond : String → List (String × GoVal) → Except String GoVal

/-- `DriverManagerClient.GetDriverInfo` (`part_000`): a `get_driver_info`
request; a success whose result is not an object is an
"invalid response format" failure. -/
def clientGetDriverInfo (c : RemoteSession) (driverName : String) :
    Except String (List (String × GoVal)) :=
  if c.connected = false then .error "not connected to driver manager"
  else
    match c.respond "get_driver_info" [("driver", .str driverName)] with
    | .ok (.obj l) => .ok l
    | .ok _ => .error "invalid response format"
    | .error e => .error e

/-- `DriverManagerPool.GetDriverInfo` (`part_000`): walk the clients slice
in registration order, skip disconnected clients, return the first success,
aggregate into a single not-found failure when no client succeeds. -/
def poolGetDriverInfo (clients : List RemoteSession) (driverName : String) :
    Except String (List (String × GoVal)) :=
  match clients with
  | [] => .error ("driver " ++ driverName ++ " not found in any connected manager")
  | c :: rest =>
    if c.connected = false then poolGetDriverInfo rest driverName
    else
      match clientGetDriverInfo c driverName with
      | .ok info => .ok info
      | .error _ => poolGetDriverInfo rest driverName

/-- `AddDriverManager` (`part_000`): registration appends to the slice. -/
def addDriverManager (clients : List RemoteSession) (c : RemoteSession) : List RemoteSession :=
  clients ++ [c]

/-- `GetConnectedManagers` (`part_001`): the connected sessions, in the
enumeration order of the registry (a Go map, whose iteration order the
language leaves unspecified — the list order stands for it here). -/
def getConnectedManagers (sessions : List RemoteSession) : List RemoteSession :=
  sessions.filter (·.connected)

/-- The params of a fanned-out `create_instance` request (`part_001`). -/
def serverCreateParams (instanceID driverName : String) (config : List (String × GoVal)) :
    List (String × GoVal) :=
  [("instance_id", .str instanceID), ("driver", .str driverName), ("config", .obj config)]

/-- The fan-out loop of `DriverManagerServer.CreateDriverInstance`. -/
def tryCreateOnManagers (managers : List RemoteSession) (instanceID driverName : String)
    (config : List (String × GoVal)) : Except String Unit :=
  match managers with
  | [] => .error "failed to create driver instance on any manager"
  | m :: rest =>
    match m.respond "create_instance" (serverCreateParams instanceID driverName config) with
    | .ok _ => .ok ()
    | .error _ => tryCreateOnManagers rest instanceID driverName config

/-- `DriverManagerServer.CreateDriverInstance` (`part_001`): a distinct
failure when no session is connected, then first-success fan-out. -/
def serverCreateDriverInstance (sessions : List RemoteSession) (instanceID driverName : String)
    (config : List (String × GoVal)) : Except String Unit :=
  let managers := getConnectedManagers sessions
  if managers.isEmpty then .error "no connected driver managers"
  else tryCreateOnManagers managers instanceID driverName config

/-- The params of a fanned-out `execute_operation` request (`part_001`). -/
def serverExecuteParams (instanceID operation : String) (params : List (String × GoVal)) :
    List (String × GoVal) :=
  [("instance_id", .str instanceID), ("operation", .str operation), ("params", .obj params)]

/-- The fan-out loop of `DriverManagerServer.ExecuteDriverOperation`. -/
def tryExecuteOnManagers (managers : List RemoteSession) (instanceID operation : String)
    (params : List (String × GoVal)) : Except String GoVal :=
  match managers with
  | [] => .error "failed to execute operation on any manager"
  | m :: rest =>
    match m.respond "execute_operation" (serverExecuteParams instanceID operation params) with
    | .ok r => .ok r
    | .error _ => tryExecuteOnManagers rest instanceID operation params

/-- `DriverManagerServer.ExecuteDriverOperation` (`part_001`): straight
first-success fan-out (no emptiness check). -/
def serverExecuteDriverOperation (sessions : List RemoteSession) (instanceID operation : String)
    (params : List (String × GoVal)) : Except String GoVal :=
  tryExecuteOnManagers (getConnectedManagers sessions) instanceID operation params

/-- The fan-out loop of `DriverManagerServer.GetDriverInfo`: the first
session whose reply succeeds and is an object wins; other replies are
skipped. -/
def tryGetInfoOnManagers (managers : List RemoteSession) (driverName : String) :
    Except String (List (String × GoVal)) :=
  match managers with
  | [] => .error ("driver " ++ driverName ++ " not found in any connected manager")
  | m :: rest =>
    match m.respond "get_driver_info" [("driver", .str driverName)] with
    | .ok (.obj l) => .ok l
    | _ => tryGetInfoOnManagers rest driverName

/-- `DriverManagerServer.GetDriverInfo` (`part_001`). -/
def serverGetDriverInfo (sessions : List RemoteSession) (driverName : String) :
    Except String (List (String × GoVal)) :=
  tryGetInfoOnManagers (getConnectedManagers sessions) driverName

/-- The outcome behaviour of one concrete driver object behind the
`driver.Driver` interface (a collaborator of `manager.go`): the results of
`Init`, `Drop`, `List`, `Link`, and of the optional `Get`/`Other`
capabilities, whose presence is interface membership. -/
structure DriverObj where
  initResult : Except String Unit
  dropResult : Except String Unit
  listResult : String → Bool → Except String GoVal
  linkResult : String → Except String GoVal
  getResult : Option (String → Except String GoVal)
  otherResult : Option (String → List (String × GoVal) → Except String GoVal)

/-- `manager.DriverInstance`: one configured, running driver. -/
structure ManagedInstance where
  name : String
  driver : DriverObj
  config : List (String × GoVal)
  enabled : Bool

/-- The instance table of `manager.DriverManager`. -/
structure DMState where
  instances : List (String × ManagedInstance)

/-- Go-map lookup on an association list with unique keys. -/
def assocLookup {α : Type} : List (String × α) → String → Option α
  | [], _ => none
  | (k, v) :: rest, key => if k = key then some v else assocLookup rest key

/-- `manager.CreateDriverInstance`: duplicate-ID check, registry lookup,
construction, synthetic storage record, the driver's own `Init`; the
instance is inserted only when `Init` succeeds.  Returns the result paired
with the (possibly unchanged) state; `reg` is the driver registry, mapping
a driver name to the constructed driver object. -/
def CreateDriverInstance (reg : String → Option DriverObj) (st : DMState)
    (instanceID driverName : String) (config : List (String × GoVal)) :
    Except String Unit × DMState :=
  if (assocLookup st.instances instanceID).isSome then
    (.error ("driver instance " ++ instanceID ++ " already exists"), st)
  else
    match reg driverName with
    | none => (.error ("failed to get driver info: driver " ++ driverName ++ " not found"), st)
    | some drv =>
      match drv.initResult with
      | .error e => (.error ("failed to initialize driver: " ++ e), st)
      | .ok _ => (.ok (), ⟨st.instances ++ [(instanceID, ⟨driverName, drv, config, true⟩)]⟩)

/-- `manager.RemoveDriverInstance`: unknown IDs fail; the driver's own
`Drop` runs first and its failure aborts the removal. -/
def RemoveDriverInstance (st : DMState) (instanceID : String) :
    Except String Unit × DMState :=
  match assocLookup st.instances instanceID with
  | none => (.error ("driver instance " ++ instanceID ++ " not found"), st)
  | some inst =>
    match inst.driver.dropResult with
    | .error e => (.error ("failed to drop driver: " ++ e), st)
    | .ok _ => (.ok (), ⟨st.instances.filter (fun p => p.1 ≠ instanceID)⟩)

/-- Set the enabled flag of the instance stored under `iid`. -/
def setInstanceEnabled : List (String × ManagedInstance) → String → Bool →
    List (String × ManagedInstance)
  | [], _, _ => []
  | (k, inst) :: rest, iid, b =>
    if k = iid then (k, { inst with enabled := b }) :: setInstanceEnabled rest iid b
    else (k, inst) :: setInstanceEnabled rest iid b

/-- `manager.EnableDriverInstance`. -/
def EnableDriverInstance (st : DMState) (instanceID : String) :
    Except String Unit × DMState :=
  match assocLookup st.instances instanceID with
  | none => (.error ("driver instance " ++ instanceID ++ " not found"), st)
  | some _ => (.ok (), ⟨setInstanceEnabled st.instances instanceID true⟩)

/-- `manager.DisableDriverInstance`. -/
def DisableDriverInstance (st : DMState) (instanceID : String) :
    Except String Unit × DMState :=
  match assocLookup st.instances instanceID with
  | none => (.error ("driver instance " ++ instanceID ++ " not found"), st)
  | some _ => (.ok (), ⟨setInstanceEnabled st.instances instanceID false⟩)

/-- `manager.executeListOperation`: requires a string `path`, reads an
optional boolean `refresh`, then calls the driver's `List`. -/
def executeListOperation (inst : ManagedInstance) (params : List (String × GoVal)) :
    Except String GoVal :=
  match asGoString (jsonLookup params "path") with
  | none => .error "path parameter is required"
  | some path =>
    let refresh :=
      match jsonLookup params "refresh" with
      | some (.bool b) => b
      | _ => false
    inst.driver.listResult path refresh

/-- `manager.executeLinkOperation`. -/
def executeLinkOperation (inst : ManagedInstance) (params : List (String × GoVal)) :
    Except String GoVal :=
  match asGoString (jsonLookup params "path") with
  | none => .error "path parameter is required"
  | some path => inst.driver.linkResult path

/-- `manager.executeGetOperation`: the capability check comes before the
`path` check. -/
def executeGetOperation (inst : ManagedInstance) (params : List (String × GoVal)) :
    Except String GoVal :=
  match inst.driver.getResult with
  | none => .error "driver does not support get operation"
  | some g =>
    match asGoString (jsonLookup params "path") with
    | none => .error "path parameter is required"
    | some path => g path

/-- `manager.executeOtherOperation`. -/
def executeOtherOperation (inst : ManagedInstance) (params : List (String × GoVal)) :
    Except String GoVal :=
  match inst.driver.otherResult with
  | none => .error "driver does not support other operation"
  | some o => o ((asGoString (jsonLookup params "method")).getD "") params

/-- `manager.ExecuteDriverOperation`: absent instances fail, disabled
instances fail, then the operation name dispatches; unknown names fail
without reaching the driver. -/
def ExecuteDriverOperation (st : DMState) (instanceID operation : String)
    (params : List (String × GoVal)) : Except String GoVal :=
  match assocLookup st.instances instanceID with
  | none => .error ("driver instance " ++ instanceID ++ " not found")
  | some inst =>
    if inst.enabled = false then
      .error ("driver instance " ++ instanceID ++ " is disabled")
    else if operation = "list" then executeListOperation inst params
    else if operation = "link" then executeLinkOperation inst params
    else if operation = "get" then executeGetOperation inst params
    else if operation = "other" then executeOtherOperation inst params
    else .error ("unsupported operation: " ++ operation)

/-- One enable/disable request applied to the manager state (the id and the
flag written, last writer winning under the manager's lock). -/
def applyToggle (st : DMState) (t : String × Bool) : DMState :=
  if t.2 then (EnableDriverInstance st t.1).2 else (DisableDriverInstance st t.1).2

/-- A serialization of concurrent enable/disable requests. -/
def applyToggles (st : DMState) (ts : List (String × Bool)) : DMState :=
  ts.foldl applyToggle st

/-- `HandshakeInfo` of the host side: the catalog snapshot captured from a
handshake message. -/
structure HandshakeInfo where
  driverCount : Int
  drivers : List (String × GoVal)

/-- Decoding `msg.Result` into `HandshakeInfo` in `waitForHandshake`: a
marshal/unmarshal round trip into the two-field struct (unknown keys are
ignored, absent ones keep their zero values). -/
def parseHandshakeInfo (v : GoVal) : Except String HandshakeInfo :=
  match v with
  | .null => .ok ⟨0, []⟩
  | .obj fields =>
    match decodeIntField (jsonLookup fields "driver_count"),
          decodeParamsField (jsonLookup fields "drivers") with
    | some n, some d => .ok ⟨n, d.getD []⟩
    | _, _ => .error "failed to parse handshake"
  | _ => .error "failed to parse handshake"

/-- `DriverManagerClient.waitForHandshake` (`part_000`): skip every line
until one parses as a message whose type AND id are both `"handshake"`,
then decode its result; exhausting the input is the timeout. -/
def clientWaitForHandshake : List LineInput → Except String HandshakeInfo
  | [] => .error "handshake timeout"
  | line :: rest =>
    match parseMessage line with
    | none => clientWaitForHandshake rest
    | some msg =>
      if msg.type = "handshake" ∧ msg.id = "handshake" then parseHandshakeInfo msg.result
      else clientWaitForHandshake rest

/-- `DriverManagerServer.waitForHandshake` (`part_001`): accepts the first
message whose type is `"handshake"`, regardless of its id. -/
def serverWaitForHandshake : List LineInput → Except String HandshakeInfo
  | [] => .error "handshake timeout"
  | line :: rest =>
    match parseMessage line with
    | none => serverWaitForHandshake rest
    | some msg =>
      if msg.type = "handshake" then parseHandshakeInfo msg.result
      else serverWaitForHandshake rest

/-- The connected-sessions registry of `DriverManagerServer`: generated
session ID to captured handshake. -/
structure ServerState where
  clients : List (String × HandshakeInfo)

/-- `handleConnection` (`part_001`): wait for the handshake; on failure
return without registering, on success register under the generated
`dm-<nanos>` session ID. -/
def handleConnection (st : ServerState) (nanos : Nat) (lines : List LineInput) : ServerState :=
  match serverWaitForHandshake lines with
  | .error _ => st
  | .ok h => ⟨st.clients ++ [("dm-" ++ natToDecString nanos, h)]⟩

/-- The registry after the listener has handled a batch of connections,
each given by its ID-generation clock reading and its incoming lines. -/
def serverAfter (st : ServerState) (conns : List (Nat × List LineInput)) : ServerState :=
  conns.foldl (fun s c => handleConnection s c.1 c.2) st

/-- One driver entry of the registry snapshot (`registry.DriverInfo`),
with the reflection-generated parts held opaquely. -/
structure RegistryDriverInfo where
  name : String
  config : GoVal
  items : GoVal
  i18n : GoVal

/-- The per-driver objects marshalled into the handshake's `drivers` map by
`SendHandshake`. -/
def handshakeDriverEntries (drivers : List (String × RegistryDriverInfo)) :
    List (String × GoVal) :=
  drivers.map fun p =>
    (p.1, .obj [("name", .str p.2.name), ("config", p.2.config),
                ("items", p.2.items), ("i18n", p.2.i18n)])

/-- `SendHandshake` of `protocol.go`: the handshake message carries ID and
type `"handshake"` and the catalog snapshot (manager id, driver count,
driver map) in `result`. -/
def sendHandshakeMessage (managerID : String) (drivers : List (String × RegistryDriverInfo)) :
    Message :=
  { id := "handshake", type := "handshake", method := "", params := none,
    result := .obj [("manager_id", .str managerID),
                    ("driver_count", .num (drivers.length : Int)),
                    ("drivers", .obj (handshakeDriverEntries drivers))],
    error := none }

/-- A trivial manager oracle used to instantiate handler theorems. -/
def mgrW : ManagerOracle :=
  { listDriversResult := .obj [],
    getDriverInfoResult := fun _ => .error "driver not found",
    createResult := fun _ _ _ => .ok (),
    removeResult := fun _ => .ok (),
    listInstancesResult := .obj [],
    enableResult := fun _ => .ok (),
    disableResult := fun _ => .ok (),
    executeResult := fun _ _ _ => .ok .null }

/-- A connected session that does not host driver "X". -/
def sessionMissingX : RemoteSession :=
  { connected := true, respond := fun _ _ => .error "driver X not found" }

/-- A connected session hosting driver "X". -/
def sessionHostingX : RemoteSession :=
  { connected := true,
    respond := fun method _ =>
      if method = "get_driver_info" then .ok (.obj [("name", .str "X")])
      else .error "no" }

/-- A disconnected session. -/
def sessionDisconnected : RemoteSession :=
  { connected := false, respond := fun _ _ => .error "unreachable" }

/-- A request whose params map is present but empty (a valid Go value). -/
def mEx : Message :=
  { id := "req-1", type := "request", method := "list_drivers", params := some [],
    result := .null, error := none }

/-- A response exercising the optional result and error fields. -/
def mW : Message :=
  { id := "p1", type := "response", method := "", params := none,
    result := .str "pong", error := some ⟨400, "bad"⟩ }

/-- A driver whose lifecycle calls all succeed. -/
def drvOk : DriverObj :=
  { initResult := .ok (), dropResult := .ok (),
    listResult := fun _ _ => .ok (.arr []),
    linkResult := fun _ => .ok (.obj []),
    getResult := some (fun _ => .ok (.obj [])),
    otherResult := none }

/-- A driver whose `Init` fails. -/
def drvInitFail : DriverObj :=
  { drvOk with initResult := .error "cannot reach backend" }

/-- A driver whose `Drop` fails. -/
def drvDropFail : DriverObj :=
  { drvOk with dropResult := .error "busy" }

/-- A registry hosting only the driver "Local". -/
def regW : String → Option DriverObj :=
  fun name => if name = "Local" then some drvOk else none

/-- An instance of "Local", enabled. -/
def instLocal : ManagedInstance := ⟨"Local", drvOk, [], true⟩

/-- An instance of "Local", disabled. -/
def instDisabled : ManagedInstance := ⟨"Local", drvOk, [], false⟩

/-- A manager state with the single instance `s-1`. -/
def stOne : DMState := ⟨[("s-1", instLocal)]⟩

/-- A manager state with the single disabled instance `s-2`. -/
def stDisabled : DMState := ⟨[("s-2", instDisabled)]⟩

/-- A session state with one pending request whose ID collides with the ID
generated for method `list` at clock reading 5. -/
def stCollision : SessionState := { connected := true, responses := ["list-5"] }

/-- A minimal wire handshake line. -/
def goodHandshakeLine : LineInput :=
  .jsonVal (.obj [("id", .str "handshake"), ("type", .str "handshake")])

/-- A parsed ping message, not a handshake. -/
def pingMsg : Message := ⟨"p1", "ping", "", none, .null, none⟩

/-- A wire line carrying `pingMsg`. -/
def nonHandshakeLine : LineInput :=
  .jsonVal (.obj [("id", .str "p1"), ("type", .str "ping")])

/-- A `create_instance` request missing its `driver` parameter. -/
def msgMissingDriver : Message :=
  ⟨"c1", "request", "create_instance", some [("instance_id", .str "s-1")], .null, none⟩

/-- A JSON-object line with a well-typed id but a mistyped `type` field:
`json.Unmarshal` fails on it, yet leaves `"r1"` in `msg.ID`. -/
def typeMismatchLine : LineInput :=
  .jsonVal (.obj [("id", .str "r1"), ("type", .num 5)])

/-- A connected session answering every request with result "A". -/
def sessionRespA : RemoteSession :=
  { connected := true, respond := fun _ _ => .ok (.str "A") }

/-- A connected session answering every request with result "B". -/
def sessionRespB : RemoteSession :=
  { connected := true, respond := fun _ _ => .ok (.str "B") }

theorem decDigitsCore_congr : ∀ f₁ f₂ n : Nat, n ≤ f₁ → n ≤ f₂ →
    decDigitsCore f₁ n = decDigitsCore f₂ n := by
  intro f₁
  induction f₁ with
  | zero =>
    intro f₂ n h₁ _
    interval_cases n
    cases f₂ <;> rfl
  | succ f ih =>
    intro f₂ n h₁ h₂
    match n, f₂ with
    | 0, 0 => rfl
    | 0, _ + 1 => rfl
    | m + 1, g + 1 =>
      show Nat.digitChar _ :: decDigitsCore f ((m + 1) / 10)
         = Nat.digitChar _ :: decDigitsCore g ((m + 1) / 10)
      have hlt : (m + 1) / 10 < m + 1 := Nat.div_lt_self (by omega) (by omega)
      rw [ih g ((m + 1) / 10) (by omega) (by omega)]

theorem decDigitsLE_succ (n : Nat) :
    decDigitsLE (n + 1) = Nat.digitChar ((n + 1) % 10) :: decDigitsLE ((n + 1) / 10) := by
  show decDigitsCore (n + 1) (n + 1) = _
  show Nat.digitChar ((n + 1) % 10) :: decDigitsCore n ((n + 1) / 10) = _
  have hlt : (n + 1) / 10 < n + 1 := Nat.div_lt_self (by omega) (by omega)
  rw [decDigitsCore_congr n ((n + 1) / 10) ((n + 1) / 10) (by omega) (le_refl _)]
  rfl

theorem decDigitsLE_eq_nil_iff (n : Nat) : decDigitsLE n = [] ↔ n = 0 := by
  cases n with
  | zero => simp [decDigitsLE, decDigitsCore]
  | succ m => rw [decDigitsLE_succ]; simp

theorem digitChar_injOn : ∀ a < 10, ∀ b < 10, Nat.digitChar a = Nat.digitChar b → a = b := by
  decide

theorem digitChar_ne_dash : ∀ a < 10, Nat.digitChar a ≠ '-' := by
  decide

theorem digitChar_eq_zeroChar : ∀ a < 10, Nat.digitChar a = '0' → a = 0 := by
  decide

theorem decDigitsLE_inj : ∀ a b : Nat, decDigitsLE a = decDigitsLE b → a = b := by
  intro a
  induction a using Nat.strong_induction_on with
  | _ a ih =>
    intro b h
    match a, b with
    | 0, 0 => rfl
    | 0, m + 1 =>
      rw [decDigitsLE_succ] at h
      exact absurd h.symm (by simp [decDigitsLE, decDigitsCore])
    | n + 1, 0 =>
      rw [decDigitsLE_succ] at h
      exact absurd h (by simp [decDigitsLE, decDigitsCore])
    | n + 1, m + 1 =>
      rw [decDigitsLE_succ, decDigitsLE_succ] at h
      have hd := List.head_eq_of_cons_eq h
      have ht := List.tail_eq_of_cons_eq h
      have hmod : (n + 1) % 10 = (m + 1) % 10 :=
        digitChar_injOn _ (Nat.mod_lt _ (by omega)) _ (Nat.mod_lt _ (by omega)) hd
      have hdiv : (n + 1) / 10 = (m + 1) / 10 :=
        ih ((n + 1) / 10) (Nat.div_lt_self (by omega) (by omega)) ((m + 1) / 10) ht
      omega

theorem mem_decDigitsLE_lt_ten : ∀ n : Nat, ∀ c ∈ decDigitsLE n, ∃ d < 10, c = Nat.digitChar d := by
  intro n
  induction n using Nat.strong_induction_on with
  | _ n ih =>
    intro c hc
    match n with
    | 0 => simp [decDigitsLE, decDigitsCore] at hc
    | m + 1 =>
      rw [decDigitsLE_succ] at hc
      rcases List.mem_cons.mp hc with h | h
      · exact ⟨(m + 1) % 10, Nat.mod_lt _ (by omega), h⟩
      · exact ih ((m + 1) / 10) (Nat.div_lt_self (by omega) (by omega)) c h

theorem natToDecString_no_dash (n : Nat) : '-' ∉ (natToDecString n).data := by
  unfold natToDecString
  split
  · intro h
    simp only [show ("0" : String).data = ['0'] from rfl] at h
    simp at h
  · intro h
    have h2 : '-' ∈ decDigitsLE n := by
      have : ('-' : Char) ∈ (decDigitsLE n).reverse := h
      simpa using this
    obtain ⟨d, hd, hdc⟩ := mem_decDigitsLE_lt_ten n '-' h2
    exact digitChar_ne_dash d hd hdc.symm

theorem natToDecString_inj : ∀ a b : Nat, natToDecString a = natToDecString b → a = b := by
  have hzero : ∀ m : Nat, natToDecString m = "0" → m = 0 := by
    intro m h
    by_contra hm
    unfold natToDecString at h
    rw [if_neg hm] at h
    have hdata : (decDigitsLE m).reverse = ['0'] := congrArg String.data h
    have hrev : decDigitsLE m = ['0'] := by
      have := congrArg List.reverse hdata
      simpa using this
    match hm2 : m, hrev with
    | k + 1, hrev =>
      rw [decDigitsLE_succ] at hrev
      have hd := List.head_eq_of_cons_eq hrev
      have ht := List.tail_eq_of_cons_eq hrev
      have hdiv0 : (k + 1) / 10 = 0 := (decDigitsLE_eq_nil_iff _).mp ht
      have hk : k + 1 < 10 := by omega
      have hmod : (k + 1) % 10 = k + 1 := Nat.mod_eq_of_lt hk
      rw [hmod] at hd
      have := digitChar_eq_zeroChar (k + 1) hk hd
      omega
  intro a b h
  match ha : a, hb : b with
  | 0, m => exact (hzero m h.symm).symm
  | n + 1, 0 => exact hzero (n + 1) h
  | n + 1, m + 1 =>
    have hna : ¬(n + 1 = 0) := by omega
    have hnb : ¬(m + 1 = 0) := by omega
    unfold natToDecString at h
    rw [if_neg hna, if_neg hnb] at h
    have hdata := congrArg String.data h
    simp only [List.asString] at hdata
    have hrev : (decDigitsLE (n + 1)).reverse = (decDigitsLE (m + 1)).reverse := hdata
    have : decDigitsLE (n + 1) = decDigitsLE (m + 1) := by
      have := congrArg List.reverse hrev
      simpa using this
    exact decDigitsLE_inj _ _ this

theorem append_dash_inj : ∀ l₁ l₂ r₁ r₂ : List Char, '-' ∉ r₁ → '-' ∉ r₂ →
    l₁ ++ '-' :: r₁ = l₂ ++ '-' :: r₂ → l₁ = l₂ ∧ r₁ = r₂ := by
  intro l₁
  induction l₁ with
  | nil =>
    intro l₂ r₁ r₂ h₁ h₂ h
    cases l₂ with
    | nil =>
      simp only [List.nil_append] at h
      exact ⟨rfl, List.tail_eq_of_cons_eq h⟩
    | cons c t =>
      simp only [List.nil_append, List.cons_append] at h
      have hc := List.head_eq_of_cons_eq h
      have ht := List.tail_eq_of_cons_eq h
      exfalso
      apply h₁
      rw [ht]
      exact List.mem_append.mpr (Or.inr (List.mem_cons_self _ _))
  | cons c t ih =>
    intro l₂ r₁ r₂ h₁ h₂ h
    cases l₂ with
    | nil =>
      simp only [List.nil_append, List.cons_append] at h
      have hc := List.head_eq_of_cons_eq h
      have ht := List.tail_eq_of_cons_eq h
      exfalso
      apply h₂
      rw [← ht]
      exact List.mem_append.mpr (Or.inr (List.mem_cons_self _ _))
    | cons c' t' =>
      simp only [List.cons_append] at h
      have hc := List.head_eq_of_cons_eq h
      have ht := List.tail_eq_of_cons_eq h
      obtain ⟨hl, hr⟩ := ih t' r₁ r₂ h₁ h₂ ht
      exact ⟨by rw [hc, hl], hr⟩

theorem string_data_inj {a b : String} (h : a.data = b.data) : a = b := by
  cases a; cases b; exact congrArg String.mk h

/-- The correlation-ID generator is injective: distinct method/timestamp
pairs never produce the same ID (the timestamp is the all-digit suffix
after the last dash). -/
theorem genId_inj (m₁ m₂ : String) (a b : Nat) (h : genId m₁ a = genId m₂ b) :
    m₁ = m₂ ∧ a = b := by
  unfold genId at h
  have hdata := congrArg String.data h
  simp only [String.data_append] at hdata
  have := append_dash_inj m₁.data m₂.data (natToDecString a).data (natToDecString b).data
    (natToDecString_no_dash a) (natToDecString_no_dash b)
    (by simpa [List.append_assoc] using hdata)
  obtain ⟨hm, hn⟩ := this
  exact ⟨string_data_inj hm, natToDecString_inj a b (string_data_inj hn)⟩

/-- Claim C7 (corrected): serialize-then-deserialize is identity-preserving
for every `Message` except that a present-but-empty params map collapses to
an absent one — `params,omitempty` drops a non-nil empty map, and decoding
the resulting line leaves the zero (nil) map.  Under the amendment
`m.params ≠ some []`, the round trip is the identity on every field,
including the optional method, params, result and error fields. -/
theorem message_roundtrip (m : Message) (hp : m.params ≠ some []) :
    unmarshalMessage (marshalMessage m) = some m := by
  obtain ⟨id, typ, method, params, result, error⟩ := m
  by_cases hm : method = ""
  · subst hm
    match params, hp with
    | none, _ => cases result <;> cases error <;> rfl
    | some [], hp => exact absurd rfl hp
    | some (p :: ps), _ => cases result <;> cases error <;> rfl
  · simp only [marshalMessage, marshalMethod, if_neg hm]
    match params, hp with
    | none, _ => cases result <;> cases error <;> rfl
    | some [], hp => exact absurd rfl hp
    | some (p :: ps), _ => cases result <;> cases error <;> rfl

/-- The claim as frozen is false: the valid message `mEx`, whose params map
is present but empty, does not survive the round trip (its params come back
nil). -/
theorem roundtrip_fails_on_empty_params :
    unmarshalMessage (marshalMessage mEx) ≠ some mEx := by
  intro h
  have h0 : unmarshalMessage (marshalMessage mEx) =
      some { id := "req-1", type := "request", method := "list_drivers", params := none,
             result := .null, error := none } := rfl
  have h1 := Option.some.inj (h0.symm.trans h)
  have h2 := congrArg Message.params h1
  exact Option.noConfusion h2

/-- Witness: the amended round-trip law evaluated on the concrete response
`mW`, which exercises the optional result and error fields. -/
theorem message_roundtrip_witness :
    mW.params ≠ some [] ∧ unmarshalMessage (marshalMessage mW) = some mW :=
  ⟨fun h => Option.noConfusion h, message_roundtrip mW (fun h => Option.noConfusion h)⟩

/-- The claim as frozen is false: two `sendRequest` calls that read the same
`UnixNano` value for the same method receive the same correlation ID, so the
IDs of two simultaneously pending requests need not be distinct — the
generator has no collision guard. -/
theorem genId_collision_same_timestamp :
    ¬ (pendingIds [("list_drivers", 12345), ("list_drivers", 12345)]).Nodup := by
  simp [pendingIds, List.nodup_cons]

/-- Claim C2 (corrected): the correlation IDs of any set of pending
`sendRequest` calls on one session are pairwise distinct provided the clock
readings of the calls are pairwise distinct (the ID embeds the reading as
the all-digit suffix after the last dash); with equal readings and equal
method the IDs collide, so the claim holds only under that amendment. -/
theorem pendingIds_distinct_of_distinct_timestamps (calls : List (String × Nat))
    (hts : (calls.map Prod.snd).Nodup) : (pendingIds calls).Nodup := by
  have hl : calls.Nodup := List.Nodup.of_map _ hts
  have hsnd := List.inj_on_of_nodup_map hts
  refine List.Nodup.map_on ?_ hl
  intro x hx y hy hxy
  obtain ⟨hm, hn⟩ := genId_inj x.1 y.1 x.2 y.2 hxy
  exact hsnd hx hy hn

/-- Witness: two pending calls with distinct clock readings get distinct
correlation IDs. -/
theorem pendingIds_distinct_witness :
    (([("list_drivers", 1), ("create_instance", 2)] : List (String × Nat)).map Prod.snd).Nodup ∧
    (pendingIds [("list_drivers", 1), ("create_instance", 2)]).Nodup :=
  ⟨by decide, pendingIds_distinct_of_distinct_timestamps _ (by decide)⟩

/-- The claim as frozen is false: when the generated correlation ID collides
with one already pending (same method, same clock reading), registering
overwrites the old entry and the deferred delete removes it, so the table
does not return to its pre-call size. -/
theorem sendRequest_table_size_collision :
    ((sendRequest stCollision "list" 5 true .timeout).finalResponses).length ≠
      stCollision.responses.length := by
  decide

/-- Claim C6 (corrected): `sendRequest` on a disconnected session fails
immediately, registering nothing and writing nothing; and on every exit
path (response, carried error, timeout, cancellation, write failure) the
deferred delete removes the registration, so the pending table returns to
its pre-call contents — provided the generated ID was not already pending
(an ID collision makes the delete also evict the older registration, which
is what the counterexample shows). -/
theorem sendRequest_cleanup (st : SessionState) (method : String) (nanos : Nat)
    (writeOk : Bool) (outcome : WaitOutcome) :
    (st.connected = false →
      sendRequest st method nanos writeOk outcome =
        { result := .error "not connected to driver manager",
          finalResponses := st.responses, registered := false, wrote := false }) ∧
    (st.connected = true → genId method nanos ∉ st.responses →
      (sendRequest st method nanos writeOk outcome).finalResponses = st.responses) := by
  constructor
  · intro h
    simp [sendRequest, h]
  · intro hc hni
    have hins : tableInsert st.responses (genId method nanos) =
        st.responses ++ [genId method nanos] := by
      simp [tableInsert, hni]
    have hdel : tableDelete (st.responses ++ [genId method nanos]) (genId method nanos) =
        st.responses := by
      unfold tableDelete
      rw [List.filter_append]
      have h1 : st.responses.filter (fun x => x ≠ genId method nanos) = st.responses := by
        rw [List.filter_eq_self]
        intro a ha
        simp only [decide_eq_true_eq]
        intro hax
        exact hni (hax ▸ ha)
      have h2 : ([genId method nanos] : List String).filter
          (fun x => x ≠ genId method nanos) = [] := by simp
      rw [h1, h2, List.append_nil]
    cases writeOk <;> simp [sendRequest, hc, hins, hdel]

/-- Witness: a timed-out call on a connected session with a fresh ID leaves
the pending table exactly as it was. -/
theorem sendRequest_cleanup_witness :
    genId "list" 5 ∉ (["x-1"] : List String) ∧
    (sendRequest { connected := true, responses := ["x-1"] } "list" 5 true
      .timeout).finalResponses = ["x-1"] :=
  ⟨by decide,
   (sendRequest_cleanup { connected := true, responses := ["x-1"] } "list" 5 true
      .timeout).2 rfl (by decide)⟩

/-- The claim as frozen is false: the driver-manager-side `processMessage`
does emit an error response for an unparseable line — here the concrete
non-JSON line is answered with a code-400 `Invalid JSON` response (with the
empty id, since nothing of the line decoded). -/
theorem processMessage_invalid_json_sends_error :
    processMessage mgrW (.notJson "oops") "invalid character" =
      { call := none,
        sent := errorResponse "" 400 ("Invalid JSON: " ++ "invalid character") } := rfl

/-- Claim C1 (corrected): a line that does not parse as a JSON `Message` is
logged and dropped — nothing sent, nothing delivered — by the host-side
read loops (client and inbound-server connection alike), and neither side
terminates the session for it; the driver-manager-side protocol handler,
however, answers such a line with a code-400 error response instead of
staying silent — its id is whatever the partial decode left in `msg.ID`
(the decoded string `id` of a JSON-object line whose other fields mistype,
the empty id otherwise) — and also keeps its loop running. -/
theorem invalid_line_handling (pending : List String) (line : LineInput)
    (mgr : ManagerOracle) (errText : String) (hline : parseMessage line = none) :
    readLoopStep pending line = { sent := [], delivered := none, dropped := true } ∧
    processMessage mgr line errText =
      { call := none,
        sent := errorResponse (idFromFailedDecode line) 400 ("Invalid JSON: " ++ errText) } := by
  constructor
  · simp [readLoopStep, hline]
  · simp [processMessage, hline]

/-- Witness: a JSON-object line with id "r1" and a mistyped `type` fails to
parse, is dropped by the host-side loop, and is answered by the protocol
handler with a code-400 response that echoes the id "r1". -/
theorem invalid_line_handling_witness :
    parseMessage typeMismatchLine = none ∧
    readLoopStep [] typeMismatchLine = { sent := [], delivered := none, dropped := true } ∧
    processMessage mgrW typeMismatchLine "cannot unmarshal number" =
      { call := none,
        sent := errorResponse "r1" 400 ("Invalid JSON: " ++ "cannot unmarshal number") } :=
  ⟨rfl, (invalid_line_handling [] typeMismatchLine mgrW "cannot unmarshal number" rfl).1,
   (invalid_line_handling [] typeMismatchLine mgrW "cannot unmarshal number" rfl).2⟩

/-- The claim as frozen is false for the server-side operations: the
inbound registry is a Go map and `GetConnectedManagers` iterates it in
whatever order the runtime enumerates that map, not in registration order —
here the same two registered sessions, enumerated in the two possible
orders (a permutation of one another), give different first-success
results, so the fan-out outcome is not that of registration-order
traversal. -/
theorem server_fanout_order_unspecified :
    ([sessionRespB, sessionRespA] : List RemoteSession).Perm [sessionRespA, sessionRespB] ∧
    serverExecuteDriverOperation [sessionRespB, sessionRespA] "s-1" "list" [] ≠
      serverExecuteDriverOperation [sessionRespA, sessionRespB] "s-1" "list" [] := by
  constructor
  · exact List.Perm.swap sessionRespA sessionRespB []
  · intro h
    have hB : serverExecuteDriverOperation [sessionRespB, sessionRespA] "s-1" "list" [] =
        .ok (.str "B") := rfl
    have hA : serverExecuteDriverOperation [sessionRespA, sessionRespB] "s-1" "list" [] =
        .ok (.str "A") := rfl
    have h1 := hB.symm.trans (h.trans hA)
    have h2 := Except.ok.inj h1
    have h3 := GoVal.str.inj h2
    exact absurd h3 (by decide)

/-- Claim C3 (corrected): the pool and the inbound registry try each
connected session in the order their collection is enumerated — the pool's
slice order is registration order, while the server-side registry is a Go
map whose enumeration order is unspecified (the theorems hold for every
enumeration order) — return the first success, skip disconnected or
failing sessions, and aggregate into a single failure when every session
fails or none is connected; scenario: with two sessions of which only the
second hosts driver "X", `GetDriverInfo` succeeds via the second after the
first misses (success versus failure does not depend on the order). -/
theorem pool_first_success_fanout :
    (∀ (c : RemoteSession) (rest : List RemoteSession) (name : String),
      (c.connected = false → poolGetDriverInfo (c :: rest) name = poolGetDriverInfo rest name) ∧
      (∀ info, c.connected = true → clientGetDriverInfo c name = .ok info →
        poolGetDriverInfo (c :: rest) name = .ok info) ∧
      (∀ e, c.connected = true → clientGetDriverInfo c name = .error e →
        poolGetDriverInfo (c :: rest) name = poolGetDriverInfo rest name)) ∧
    (∀ (clients : List RemoteSession) (name : String),
      (∀ c ∈ clients, c.connected = true → ∀ info, clientGetDriverInfo c name ≠ .ok info) →
      poolGetDriverInfo clients name =
        .error ("driver " ++ name ++ " not found in any connected manager")) ∧
    (∀ (sessions : List RemoteSession) (iid dn : String) (config : List (String × GoVal)),
      getConnectedManagers sessions = [] →
      serverCreateDriverInstance sessions iid dn config = .error "no connected driver managers") ∧
    (∀ (m : RemoteSession) (rest : List RemoteSession) (iid dn : String)
        (config : List (String × GoVal)),
      (∀ r, m.respond "create_instance" (serverCreateParams iid dn config) = .ok r →
        tryCreateOnManagers (m :: rest) iid dn config = .ok ()) ∧
      (∀ e, m.respond "create_instance" (serverCreateParams iid dn config) = .error e →
        tryCreateOnManagers (m :: rest) iid dn config = tryCreateOnManagers rest iid dn config)) ∧
    (∀ (managers : List RemoteSession) (iid dn : String) (config : List (String × GoVal)),
      (∀ m ∈ managers, ∀ r, m.respond "create_instance" (serverCreateParams iid dn config) ≠ .ok r) →
      tryCreateOnManagers managers iid dn config =
        .error "failed to create driver instance on any manager") ∧
    (∀ (m : RemoteSession) (rest : List RemoteSession) (iid op : String)
        (params : List (String × GoVal)),
      (∀ r, m.respond "execute_operation" (serverExecuteParams iid op params) = .ok r →
        tryExecuteOnManagers (m :: rest) iid op params = .ok r) ∧
      (∀ e, m.respond "execute_operation" (serverExecuteParams iid op params) = .error e →
        tryExecuteOnManagers (m :: rest) iid op params = tryExecuteOnManagers rest iid op params)) ∧
    (∀ (managers : List RemoteSession) (iid op : String) (params : List (String × GoVal)),
      (∀ m ∈ managers, ∀ r, m.respond "execute_operation" (serverExecuteParams iid op params) ≠ .ok r) →
      tryExecuteOnManagers managers iid op params =
        .error "failed to execute operation on any manager") ∧
    poolGetDriverInfo [sessionMissingX, sessionHostingX] "X" = .ok [("name", .str "X")] := by
  refine ⟨?_, ?_, ?_, ?_, ?_, ?_, ?_, ?_⟩
  · intro c rest name
    refine ⟨?_, ?_, ?_⟩
    · intro h
      simp [poolGetDriverInfo, h]
    · intro info hc hok
      simp [poolGetDriverInfo, hc, hok]
    · intro e hc herr
      simp [poolGetDriverInfo, hc, herr]
  · intro clients name
    induction clients with
    | nil => intro _; rfl
    | cons c rest ih =>
      intro hfail
      have hrest := ih (fun x hx => hfail x (List.mem_cons_of_mem _ hx))
      by_cases hc : c.connected = false
      · simp [poolGetDriverInfo, hc, hrest]
      · have hct : c.connected = true := by
          cases h : c.connected
          · exact absurd h hc
          · rfl
        cases hcl : clientGetDriverInfo c name with
        | ok info => exact absurd hcl (hfail c (List.mem_cons_self _ _) hct info)
        | error e => simp [poolGetDriverInfo, hct, hcl, hrest]
  · intro sessions iid dn config h
    simp [serverCreateDriverInstance, h]
  · intro m rest iid dn config
    constructor
    · intro r h
      simp [tryCreateOnManagers, h]
    · intro e h
      simp [tryCreateOnManagers, h]
  · intro managers iid dn config
    induction managers with
    | nil => intro _; rfl
    | cons m rest ih =>
      intro hfail
      have hrest := ih (fun x hx => hfail x (List.mem_cons_of_mem _ hx))
      cases hm : m.respond "create_instance" (serverCreateParams iid dn config) with
      | ok r => exact absurd hm (hfail m (List.mem_cons_self _ _) r)
      | error e => simp [tryCreateOnManagers, hm, hrest]
  · intro m rest iid op params
    constructor
    · intro r h
      simp [tryExecuteOnManagers, h]
    · intro e h
      simp [tryExecuteOnManagers, h]
  · intro managers iid op params
    induction managers with
    | nil => intro _; rfl
    | cons m rest ih =>
      intro hfail
      have hrest := ih (fun x hx => hfail x (List.mem_cons_of_mem _ hx))
      cases hm : m.respond "execute_operation" (serverExecuteParams iid op params) with
      | ok r => exact absurd hm (hfail m (List.mem_cons_self _ _) r)
      | error e => simp [tryExecuteOnManagers, hm, hrest]
  · rfl

/-- Witness: skipping a disconnected session evaluated concretely. -/
theorem pool_first_success_fanout_witness :
    sessionDisconnected.connected = false ∧
    poolGetDriverInfo [sessionDisconnected] "X" = poolGetDriverInfo [] "X" :=
  ⟨rfl, (pool_first_success_fanout.1 sessionDisconnected [] "X").1 rfl⟩

/-- Claim C10 (confirmed): in `handleCreateInstance` a missing or
non-object `config` is silently replaced by the empty map and the request
proceeds into the manager, and in `handleExecuteOperation` the same holds
for `params`; by contrast a missing or non-string `instance_id`, `driver`
or `operation` is answered with a code-400 error response and no manager
call is made. -/
theorem handler_param_validation (mgr : ManagerOracle) (msg : Message) :
    (asGoString (getParam msg "instance_id") = none →
      handleCreateInstance mgr msg =
        { call := none, sent := errorResponse msg.id 400 "instance_id parameter is required" } ∧
      handleExecuteOperation mgr msg =
        { call := none, sent := errorResponse msg.id 400 "instance_id parameter is required" }) ∧
    (∀ iid, asGoString (getParam msg "instance_id") = some iid →
      (asGoString (getParam msg "driver") = none →
        handleCreateInstance mgr msg =
          { call := none, sent := errorResponse msg.id 400 "driver parameter is required" }) ∧
      (∀ dn, asGoString (getParam msg "driver") = some dn →
        asGoObj (getParam msg "config") = none →
        handleCreateInstance mgr msg = finishCreate mgr msg.id iid dn []) ∧
      (asGoString (getParam msg "operation") = none →
        handleExecuteOperation mgr msg =
          { call := none, sent := errorResponse msg.id 400 "operation parameter is required" }) ∧
      (∀ op, asGoString (getParam msg "operation") = some op →
        asGoObj (getParam msg "params") = none →
        handleExecuteOperation mgr msg = finishExecute mgr msg.id iid op [])) ∧
    (∀ (mid iid dn : String) (cfg : List (String × GoVal)),
      (finishCreate mgr mid iid dn cfg).call = some (.create iid dn cfg)) ∧
    (∀ (mid iid op : String) (ps : List (String × GoVal)),
      (finishExecute mgr mid iid op ps).call = some (.execute iid op ps)) := by
  refine ⟨?_, ?_, ?_, ?_⟩
  · intro h
    constructor
    · simp [handleCreateInstance, h]
    · simp [handleExecuteOperation, h]
  · intro iid hiid
    refine ⟨?_, ?_, ?_, ?_⟩
    · intro h
      simp [handleCreateInstance, hiid, h]
    · intro dn hdn hcfg
      simp [handleCreateInstance, hiid, hdn, hcfg]
    · intro h
      simp [handleExecuteOperation, hiid, h]
    · intro op hop hps
      simp [handleExecuteOperation, hiid, hop, hps]
  · intro mid iid dn cfg
    rfl
  · intro mid iid op ps
    rfl

/-- Witness: a `create_instance` request with a string `instance_id` but a
missing `driver` is rejected with the code-400 response and makes no
manager call. -/
theorem handler_param_validation_witness :
    asGoString (getParam msgMissingDriver "instance_id") = some "s-1" ∧
    asGoString (getParam msgMissingDriver "driver") = none ∧
    handleCreateInstance mgrW msgMissingDriver =
      { call := none, sent := errorResponse "c1" 400 "driver parameter is required" } :=
  ⟨rfl, rfl, ((handler_param_validation mgrW msgMissingDriver).2.1 "s-1" rfl).1 rfl⟩

/-- Claim C4 (confirmed): creating under a duplicate ID fails and leaves
the instance table (and so every existing instance) untouched; a registry
miss or an `Init` failure likewise leaves the table untouched; the new
instance is appended only after `Init` succeeds; removing an unknown ID
fails without side effects; and a `Drop` failure aborts the removal so the
entry remains. -/
theorem create_remove_frame (reg : String → Option DriverObj) (st : DMState)
    (iid dn : String) (config : List (String × GoVal)) :
    ((assocLookup st.instances iid).isSome = true →
      CreateDriverInstance reg st iid dn config =
        (.error ("driver instance " ++ iid ++ " already exists"), st)) ∧
    (assocLookup st.instances iid = none → reg dn = none →
      CreateDriverInstance reg st iid dn config =
        (.error ("failed to get driver info: driver " ++ dn ++ " not found"), st)) ∧
    (∀ drv e, assocLookup st.instances iid = none → reg dn = some drv →
      drv.initResult = .error e →
      CreateDriverInstance reg st iid dn config =
        (.error ("failed to initialize driver: " ++ e), st)) ∧
    (∀ drv, assocLookup st.instances iid = none → reg dn = some drv →
      drv.initResult = .ok () →
      CreateDriverInstance reg st iid dn config =
        (.ok (), ⟨st.instances ++ [(iid, ⟨dn, drv, config, true⟩)]⟩)) ∧
    (assocLookup st.instances iid = none →
      RemoveDriverInstance st iid =
        (.error ("driver instance " ++ iid ++ " not found"), st)) ∧
    (∀ inst e, assocLookup st.instances iid = some inst →
      inst.driver.dropResult = .error e →
      RemoveDriverInstance st iid = (.error ("failed to drop driver: " ++ e), st)) := by
  refine ⟨?_, ?_, ?_, ?_, ?_, ?_⟩
  · intro h
    simp [CreateDriverInstance, h]
  · intro h hreg
    simp [CreateDriverInstance, h, hreg]
  · intro drv e h hreg hinit
    simp [CreateDriverInstance, h, hreg, hinit]
  · intro drv h hreg hinit
    simp [CreateDriverInstance, h, hreg, hinit]
  · intro h
    simp [RemoveDriverInstance, h]
  · intro inst e h hdrop
    simp [RemoveDriverInstance, h, hdrop]

/-- Witness: the duplicate-ID rejection evaluated on a concrete state. -/
theorem create_remove_frame_witness :
    (assocLookup stOne.instances "s-1").isSome = true ∧
    CreateDriverInstance regW stOne "s-1" "Local" [] =
      (.error ("driver instance " ++ "s-1" ++ " already exists"), stOne) :=
  ⟨rfl, (create_remove_frame regW stOne "s-1" "Local" []).1 rfl⟩

theorem assocLookup_setInstanceEnabled (l : List (String × ManagedInstance))
    (iid j : String) (b : Bool) :
    assocLookup (setInstanceEnabled l iid b) j =
      if j = iid then (assocLookup l j).map (fun i => { i with enabled := b })
      else assocLookup l j := by
  induction l with
  | nil => simp [setInstanceEnabled, assocLookup]
  | cons p rest ih =>
    obtain ⟨k, inst⟩ := p
    by_cases hk : k = iid
    · by_cases hj : k = j
      · subst hk
        subst hj
        simp [setInstanceEnabled, assocLookup]
      · subst hk
        have hji : ¬ (j = k) := fun h => hj h.symm
        simp [setInstanceEnabled, assocLookup, hj, hji, ih]
    · by_cases hj : k = j
      · subst hj
        simp [setInstanceEnabled, assocLookup, hk, ih]
      · simp [setInstanceEnabled, assocLookup, hk, hj, ih]

theorem assocLookup_applyToggle_ne (st : DMState) (t : String × Bool) (j : String)
    (hj : t.1 ≠ j) :
    assocLookup (applyToggle st t).instances j = assocLookup st.instances j := by
  obtain ⟨tid, tb⟩ := t
  have hj' : ¬ (j = tid) := fun h => hj h.symm
  cases tb <;>
    simp only [applyToggle, EnableDriverInstance, DisableDriverInstance] <;>
    cases h : assocLookup st.instances tid <;>
    simp [assocLookup_setInstanceEnabled, hj']

theorem assocLookup_applyToggles_ne (post : List (String × Bool)) (st : DMState)
    (j : String) (hpost : ∀ p ∈ post, p.1 ≠ j) :
    assocLookup (applyToggles st post).instances j = assocLookup st.instances j := by
  induction post generalizing st with
  | nil => rfl
  | cons t rest ih =>
    show assocLookup (applyToggles (applyToggle st t) rest).instances j = _
    rw [ih (applyToggle st t) (fun p hp => hpost p (List.mem_cons_of_mem _ hp))]
    exact assocLookup_applyToggle_ne st t j (hpost t (List.mem_cons_self _ _))

theorem assocLookup_disable (st : DMState) (iid : String) (inst : ManagedInstance)
    (h : assocLookup st.instances iid = some inst) :
    assocLookup (applyToggle st (iid, false)).instances iid =
      some { inst with enabled := false } := by
  simp [applyToggle, DisableDriverInstance, h, assocLookup_setInstanceEnabled]

/-- Claim C5 (confirmed): `ExecuteDriverOperation` fails for an absent
instance; fails with the "disabled" error for a disabled instance — and
keeps doing so after any serialization of further enable/disable requests
whose last write for that instance was the disable, whatever the driver
would do; rejects unknown operation names without reaching the driver; and
rejects a missing string `path` for list, link and (capability present)
get without reaching the driver. -/
theorem executeOperation_guards (st : DMState) (iid : String)
    (params : List (String × GoVal)) :
    (∀ op, assocLookup st.instances iid = none →
      ExecuteDriverOperation st iid op params =
        .error ("driver instance " ++ iid ++ " not found")) ∧
    (∀ op inst, assocLookup st.instances iid = some inst → inst.enabled = false →
      ExecuteDriverOperation st iid op params =
        .error ("driver instance " ++ iid ++ " is disabled")) ∧
    (∀ inst post, assocLookup st.instances iid = some inst →
      (∀ p ∈ post, p.1 ≠ iid) →
      ∀ op, ExecuteDriverOperation (applyToggles (applyToggle st (iid, false)) post)
          iid op params =
        .error ("driver instance " ++ iid ++ " is disabled")) ∧
    (∀ op inst, assocLookup st.instances iid = some inst → inst.enabled = true →
      op ≠ "list" → op ≠ "link" → op ≠ "get" → op ≠ "other" →
      ExecuteDriverOperation st iid op params = .error ("unsupported operation: " ++ op)) ∧
    (∀ inst, assocLookup st.instances iid = some inst → inst.enabled = true →
      asGoString (jsonLookup params "path") = none →
      ExecuteDriverOperation st iid "list" params = .error "path parameter is required" ∧
      ExecuteDriverOperation st iid "link" params = .error "path parameter is required" ∧
      (∀ g, inst.driver.getResult = some g →
        ExecuteDriverOperation st iid "get" params = .error "path parameter is required")) := by
  refine ⟨?_, ?_, ?_, ?_, ?_⟩
  · intro op h
    simp [ExecuteDriverOperation, h]
  · intro op inst h hdis
    simp [ExecuteDriverOperation, h, hdis]
  · intro inst post h hpost op
    have hlook : assocLookup (applyToggles (applyToggle st (iid, false)) post).instances iid =
        some { inst with enabled := false } := by
      rw [assocLookup_applyToggles_ne post _ iid hpost]
      exact assocLookup_disable st iid inst h
    simp [ExecuteDriverOperation, hlook]
  · intro op inst h hen h1 h2 h3 h4
    simp [ExecuteDriverOperation, h, hen, h1, h2, h3, h4]
  · intro inst h hen hpath
    refine ⟨?_, ?_, ?_⟩
    · simp [ExecuteDriverOperation, h, hen, executeListOperation, hpath]
    · simp [ExecuteDriverOperation, h, hen, executeLinkOperation, hpath]
    · intro g hg
      simp [ExecuteDriverOperation, h, hen, executeGetOperation, hg, hpath]

/-- Witness: the disabled rejection evaluated on a concrete state. -/
theorem executeOperation_guards_witness :
    assocLookup stDisabled.instances "s-2" = some instDisabled ∧
    instDisabled.enabled = false ∧
    ExecuteDriverOperation stDisabled "s-2" "list" [("path", .str "/")] =
      .error ("driver instance " ++ "s-2" ++ " is disabled") :=
  ⟨rfl, rfl,
   (executeOperation_guards stDisabled "s-2" [("path", .str "/")]).2.1 "list" instDisabled
     rfl rfl⟩

/-- Claim C8 (confirmed): a connection whose handshake wait fails (timeout,
malformed payload, disconnect) is never registered, and in every state the
listener can reach from the empty registry, every registered session's
handshake was obtained from a successful `waitForHandshake` on one of the
handled connections — registration happens only after the handshake has
been received and parsed. -/
theorem registry_only_handshaked_sessions :
    (∀ (st : ServerState) (nanos : Nat) (lines : List LineInput) (e : String),
      serverWaitForHandshake lines = .error e →
      handleConnection st nanos lines = st) ∧
    (∀ (conns : List (Nat × List LineInput)) (entry : String × HandshakeInfo),
      entry ∈ (serverAfter ⟨[]⟩ conns).clients →
      ∃ c ∈ conns, serverWaitForHandshake c.2 = .ok entry.2) := by
  constructor
  · intro st nanos lines e h
    simp [handleConnection, h]
  · have key : ∀ (conns : List (Nat × List LineInput)) (st : ServerState)
        (entry : String × HandshakeInfo),
        entry ∈ (serverAfter st conns).clients →
        entry ∈ st.clients ∨ ∃ c ∈ conns, serverWaitForHandshake c.2 = .ok entry.2 := by
      intro conns
      induction conns with
      | nil => intro st entry h; exact Or.inl h
      | cons c rest ih =>
        intro st entry h
        have h' : entry ∈ (serverAfter (handleConnection st c.1 c.2) rest).clients := h
        rcases ih (handleConnection st c.1 c.2) entry h' with hin | ⟨c', hc', hok⟩
        · cases hws : serverWaitForHandshake c.2 with
          | error e =>
            rw [show handleConnection st c.1 c.2 = st by simp [handleConnection, hws]] at hin
            exact Or.inl hin
          | ok hs =>
            rw [show handleConnection st c.1 c.2 =
                ⟨st.clients ++ [("dm-" ++ natToDecString c.1, hs)]⟩ by
              simp [handleConnection, hws]] at hin
            rcases List.mem_append.mp hin with h1 | h2
            · exact Or.inl h1
            · right
              refine ⟨c, List.mem_cons_self _ _, ?_⟩
              have he : entry = ("dm-" ++ natToDecString c.1, hs) := by
                simpa using h2
              rw [he]
              exact hws
        · exact Or.inr ⟨c', List.mem_cons_of_mem _ hc', hok⟩
    intro conns entry h
    rcases key conns ⟨[]⟩ entry h with hin | hex
    · exact absurd hin (List.not_mem_nil _)
    · exact hex

/-- Witness: one connection that sends a well-formed handshake line ends up
registered, and its registry entry's handshake does come from a successful
wait on that connection's input. -/
theorem registry_only_handshaked_witness :
    ∃ c ∈ [((7 : Nat), [goodHandshakeLine])],
      serverWaitForHandshake c.2 = .ok (⟨0, []⟩ : HandshakeInfo) :=
  registry_only_handshaked_sessions.2 [(7, [goodHandshakeLine])] ("dm-7", ⟨0, []⟩)
    (by exact List.mem_singleton.mpr rfl)

/-- Claim C9 (confirmed): the outbound client's handshake wait accepts a
message only when both its type and its id are `"handshake"` and skips any
other parsed message (including handshake-typed ones with a different id),
while the inbound server's wait accepts on the type alone; the
driver-manager side always sends its handshake with id `"handshake"`, so a
client waiting on exactly that wire line succeeds — the two sides
interoperate. -/
theorem handshake_accept_conditions :
    (∀ (line : LineInput) (rest : List LineInput) (msg : Message),
      parseMessage line = some msg →
      (¬ (msg.type = "handshake" ∧ msg.id = "handshake") →
        clientWaitForHandshake (line :: rest) = clientWaitForHandshake rest) ∧
      (msg.type = "handshake" → msg.id = "handshake" →
        clientWaitForHandshake (line :: rest) = parseHandshakeInfo msg.result) ∧
      (msg.type = "handshake" →
        serverWaitForHandshake (line :: rest) = parseHandshakeInfo msg.result) ∧
      (msg.type ≠ "handshake" →
        serverWaitForHandshake (line :: rest) = serverWaitForHandshake rest)) ∧
    (∀ (mid : String) (drvs : List (String × RegistryDriverInfo)),
      (sendHandshakeMessage mid drvs).type = "handshake" ∧
      (sendHandshakeMessage mid drvs).id = "handshake" ∧
      clientWaitForHandshake [.jsonVal (marshalMessage (sendHandshakeMessage mid drvs))] =
        .ok ⟨(drvs.length : Int), handshakeDriverEntries drvs⟩) := by
  constructor
  · intro line rest msg hline
    refine ⟨?_, ?_, ?_, ?_⟩
    · intro hnot
      simp [clientWaitForHandshake, hline, hnot]
    · intro ht hi
      simp [clientWaitForHandshake, hline, ht, hi]
    · intro ht
      simp [serverWaitForHandshake, hline, ht]
    · intro ht
      simp [serverWaitForHandshake, hline, ht]
  · intro mid drvs
    refine ⟨rfl, rfl, ?_⟩
    rfl

/-- Witness: a ping line is skipped by the client's handshake wait. -/
theorem handshake_accept_witness :
    parseMessage nonHandshakeLine = some pingMsg ∧
    clientWaitForHandshake [nonHandshakeLine] = clientWaitForHandshake [] :=
  ⟨rfl,
   ((handshake_accept_conditions.1 nonHandshakeLine [] pingMsg rfl).1 (by decide))⟩
